import Mathlib

/-!
Verification of the thermal control engine of the Chamber-Master
3D-printer enclosure controller (`SRC/Rev.2.3.ino`).

The control-relevant globals of the sketch are collected in one explicit
state record `Ctl`; every embedded function is a direct translation of the
corresponding C++ function.  Temperatures are modelled as exact rationals
(`ℚ`), an absent reading (`NAN` in the sketch) as `none : Option ℚ`.
Times are naturals (milliseconds).  Each actuator-touching function also
returns the list of servo pulse widths it writes, so that "issues no
output pulse" claims can be stated exactly.
-/

set_option maxRecDepth 4000

namespace ChamberMaster

/-- `enum VentState` of the sketch. -/
inductive VentState where
  | VENT_CLOSED
  | VENT_HALF_OPENING
  | VENT_HALF_OPEN
  | VENT_OPENING
  | VENT_OPEN
  | VENT_CLOSING
  deriving DecidableEq, Repr

export VentState (VENT_CLOSED VENT_HALF_OPENING VENT_HALF_OPEN VENT_OPENING VENT_OPEN VENT_CLOSING)

/-- `enum FanSpeed` of the sketch. -/
inductive FanSpeed where
  | FAN_OFF
  | FAN_LOW
  | FAN_HIGH
  deriving DecidableEq, Repr

export FanSpeed (FAN_OFF FAN_LOW FAN_HIGH)

def NORMAL_MIN_DUTY : ℕ := 51

def SERVO_OPEN_TIME : ℕ := 850
def SERVO_HALF_OPEN_TIME : ℕ := 425
def SERVO_CLOSE_TIME : ℕ := 1100
def SERVO_FULL_TO_HALF_TIME : ℕ := 750

def SERVO_STOP_PULSE : ℕ := 1500
def SERVO_FORWARD_PULSE : ℕ := 2000
def SERVO_REVERSE_PULSE : ℕ := 1000

def HYSTERESIS_TO_HALF : ℚ := -1
def HYSTERESIS_TO_CLOSED : ℚ := -2
def HYSTERESIS_TO_FULL : ℚ := 2
def HYSTERESIS_FROM_FULL : ℚ := 1

def COOLDOWN_RATE_DEG_PER_MIN : ℚ := 3/2
def COOLDOWN_TARGET_OFFSET : ℚ := 3
def COOLDOWN_SAMPLE_MS : ℕ := 60000

/-- Arduino `constrain(amt, low, high)`. -/
def constrain {α : Type} [LinearOrder α] (amt low high : α) : α :=
  if amt < low then low else if amt > high then high else amt

/-- The control-relevant global mutable state of the sketch.
`fanPower` is the level of `FAN_POWER_PIN` (`true` = HIGH, power enabled),
`fanPwm` the last value passed to `fanPWM.writeScaled`,
`servoPulse` the last pulse width written to the vent servo. -/
structure Ctl where
  ventState : VentState
  ventActionStartMs : ℕ
  servoPulse : ℕ
  fanSpeed : FanSpeed
  fanDutyCycle : ℕ
  fanPower : Bool
  fanPwm : ℚ
  intakeFault : Bool
  cooldownLastTemp : Option ℚ
  cooldownLastCheckMs : ℕ
  cooldownFanDuty : ℕ
  cooldownEstSeconds : ℤ
  cooldownProgress : ℚ
  deriving DecidableEq, Repr

/-- `void setFanDuty(uint8_t d, bool allowBelow20 = false)`. -/
def setFanDuty (s : Ctl) (d : ℕ) (allowBelow20 : Bool) : Ctl :=
  let s := { s with fanDutyCycle := d }
  if allowBelow20 = true ∧ d < NORMAL_MIN_DUTY then
    { s with fanPower := false, fanPwm := 0 }
  else
    let effectiveDuty := if allowBelow20 = true then d else max d NORMAL_MIN_DUTY
    { s with fanPower := true, fanPwm := (effectiveDuty : ℚ) / 255 }

/-- `void updateFan(FanSpeed s)`: only acts when the commanded level differs
from the current one. -/
def updateFan (s : Ctl) (sp : FanSpeed) : Ctl :=
  if sp ≠ s.fanSpeed then
    let duty : ℕ := match sp with
      | FAN_HIGH => 255
      | FAN_LOW => 140
      | FAN_OFF => 0
    setFanDuty { s with fanSpeed := sp } duty (sp = FAN_OFF)
  else s

/-- `void startOpenVent(bool half = false)`.  Returns the new state and the
servo pulses written (stop pulse then directional pulse, or nothing). -/
def startOpenVent (s : Ctl) (half : Bool) (now : ℕ) : Ctl × List ℕ :=
  let pulse : ℕ :=
    if half = true ∧ s.ventState = VENT_OPEN then SERVO_FORWARD_PULSE else SERVO_REVERSE_PULSE
  let doOpen : Prop :=
    if half = true then
      s.ventState = VENT_CLOSED ∨ s.ventState = VENT_OPENING ∨ s.ventState = VENT_CLOSING ∨
        s.ventState = VENT_OPEN
    else
      s.ventState = VENT_CLOSED ∨ s.ventState = VENT_HALF_OPEN ∨
        s.ventState = VENT_HALF_OPENING ∨ s.ventState = VENT_CLOSING
  if doOpen then
    ({ s with ventState := if half = true then VENT_HALF_OPENING else VENT_OPENING,
              ventActionStartMs := now,
              servoPulse := pulse },
     [SERVO_STOP_PULSE, pulse])
  else (s, [])

/-- `void startCloseVent()`. -/
def startCloseVent (s : Ctl) (now : ℕ) : Ctl × List ℕ :=
  if s.ventState = VENT_OPEN ∨ s.ventState = VENT_HALF_OPEN ∨
      s.ventState = VENT_OPENING ∨ s.ventState = VENT_HALF_OPENING then
    ({ s with ventState := VENT_CLOSING,
              ventActionStartMs := now,
              servoPulse := SERVO_FORWARD_PULSE },
     [SERVO_STOP_PULSE, SERVO_FORWARD_PULSE])
  else (s, [])

/-- `void processVentState()`: completes a timed transition once its
deadline has passed.  The half-opening duration depends on the last pulse
written (`ventServo.readMicroseconds()` in the sketch). -/
def processVentState (s : Ctl) (now : ℕ) : Ctl × List ℕ :=
  let t : ℕ :=
    if s.ventState = VENT_HALF_OPENING ∧ s.servoPulse = SERVO_FORWARD_PULSE then
      SERVO_FULL_TO_HALF_TIME
    else if s.ventState = VENT_HALF_OPENING then SERVO_HALF_OPEN_TIME
    else if s.ventState = VENT_OPENING then SERVO_OPEN_TIME
    else SERVO_CLOSE_TIME
  if s.ventState = VENT_OPENING ∧ now - s.ventActionStartMs ≥ SERVO_OPEN_TIME then
    ({ s with ventState := VENT_OPEN, servoPulse := SERVO_STOP_PULSE }, [SERVO_STOP_PULSE])
  else if s.ventState = VENT_HALF_OPENING ∧ now - s.ventActionStartMs ≥ t then
    ({ s with ventState := VENT_HALF_OPEN, servoPulse := SERVO_STOP_PULSE }, [SERVO_STOP_PULSE])
  else if s.ventState = VENT_CLOSING ∧ now - s.ventActionStartMs ≥ SERVO_CLOSE_TIME then
    ({ s with ventState := VENT_CLOSED, servoPulse := SERVO_STOP_PULSE }, [SERVO_STOP_PULSE])
  else (s, [])

/-- Intake-fault supervision, `loop()` lines 1085-1094.  Runs only when the
chamber reading is valid (`T`); an absent intake reading fires neither the
assert nor the clear branch. -/
def faultBranch (s : Ctl) (T : ℚ) (intake : Option ℚ) (now : ℕ) : Ctl × List ℕ :=
  let intakeHot : Bool := match intake with
    | some i => decide (i > T + 5)
    | none => false
  let intakeCool : Bool := match intake with
    | some i => decide (i ≤ T + 2)
    | none => false
  if s.intakeFault = false ∧ intakeHot = true then
    let s := { s with intakeFault := true }
    let p := startOpenVent s false now
    (updateFan p.1 FAN_HIGH, p.2)
  else if s.intakeFault = true ∧ intakeCool = true then
    ({ s with intakeFault := false }, [])
  else (s, [])

/-- The target temperature of the cooldown controller:
`isnan(ambientTemp) ? 25.0f : ambientTemp + COOLDOWN_TARGET_OFFSET`. -/
def cooldownTarget (ambient : Option ℚ) : ℚ :=
  match ambient with
  | none => 25
  | some a => a + COOLDOWN_TARGET_OFFSET

/-- The body of the `if (now - cooldownLastCheckMs >= COOLDOWN_SAMPLE_MS)`
block of the cooldown mode (lines 1112-1142), entered with a valid chamber
reading `T` and `finished = (chamberTemp <= target + 0.5f)`. -/
def cooldownWindow (s : Ctl) (T target : ℚ) (finished : Bool) (now : ℕ) : Ctl × List ℕ :=
  let last : ℚ := s.cooldownLastTemp.getD T
  let drop : ℚ := last - T
  if finished = true then
    let s := setFanDuty s 0 true
    let p2 := startCloseVent s now
    ({ p2.1 with cooldownEstSeconds := 0, cooldownProgress := 1,
                 cooldownLastTemp := some T, cooldownLastCheckMs := now },
     p2.2)
  else
    let elapsed : ℚ := ((now - s.cooldownLastCheckMs : ℕ) : ℚ)
    let dpm : ℚ := drop * (60000 / elapsed)
    let adj : ℤ := if dpm < COOLDOWN_RATE_DEG_PER_MIN - 3/10 then 20
      else if dpm > COOLDOWN_RATE_DEG_PER_MIN + 3/10 then -20
      else 0
    let newDuty : ℕ := (constrain ((s.cooldownFanDuty : ℤ) + adj) 0 255).toNat
    let s := setFanDuty { s with cooldownFanDuty := newDuty } newDuty true
    let total : ℚ := last - target
    let currentDrop : ℚ := last - T
    let s := { s with cooldownProgress :=
      if total > 1/2 then constrain (currentDrop / total) 0 1 else 1 }
    let s := if drop > 1/10 ∧ total > 1/2 ∧ now - s.cooldownLastCheckMs > 1000 then
        let rate : ℚ := drop * (60000 / elapsed)
        if rate > 1/10 then
          let rem : ℚ := T - target
          if rem > 0 then { s with cooldownEstSeconds := ⌊rem / rate * 60⌋ } else s
        else s
      else s
    ({ s with cooldownLastTemp := some T, cooldownLastCheckMs := now }, [])

/-- The `COOLDOWN MODE` branch of `loop()` (lines 1098-1143), entered with a
valid chamber reading `T`. -/
def cooldownBranch (s : Ctl) (T : ℚ) (ambient : Option ℚ) (now : ℕ) : Ctl × List ℕ :=
  let target : ℚ := cooldownTarget ambient
  let cooldownFinished : Bool := decide (T ≤ target + 1/2)
  let s := if s.cooldownLastCheckMs = 0 ∨ s.cooldownLastTemp = none then
      { s with cooldownLastCheckMs := now, cooldownLastTemp := some T }
    else s
  let p1 := if cooldownFinished = false ∧ s.ventState ≠ VENT_OPEN ∧ s.ventState ≠ VENT_OPENING then
      startOpenVent s false now
    else (s, [])
  if now - p1.1.cooldownLastCheckMs ≥ COOLDOWN_SAMPLE_MS then
    let p2 := cooldownWindow p1.1 T target cooldownFinished now
    (p2.1, p1.2 ++ p2.2)
  else p1

/-- The `NORMAL MODES` directional-hysteresis branch of `loop()`
(lines 1145-1167), entered with a valid chamber reading `T`. -/
def normalBranch (s : Ctl) (T activeTarget : ℚ) (now : ℕ) : Ctl × List ℕ :=
  if s.ventState = VENT_CLOSED then
    if T > activeTarget + HYSTERESIS_TO_FULL then
      let p := startOpenVent s false now
      (updateFan p.1 FAN_HIGH, p.2)
    else if T > activeTarget + HYSTERESIS_TO_HALF then
      let p := startOpenVent s true now
      (updateFan p.1 FAN_LOW, p.2)
    else (s, [])
  else if s.ventState = VENT_HALF_OPEN ∨ s.ventState = VENT_HALF_OPENING then
    if T < activeTarget + HYSTERESIS_TO_CLOSED then
      let p := startCloseVent s now
      (updateFan p.1 FAN_OFF, p.2)
    else if T > activeTarget + HYSTERESIS_TO_FULL then
      let p := startOpenVent s false now
      (updateFan p.1 FAN_HIGH, p.2)
    else (s, [])
  else if s.ventState = VENT_OPEN ∨ s.ventState = VENT_OPENING then
    if T ≤ activeTarget + HYSTERESIS_FROM_FULL then
      let p := startOpenVent s true now
      (updateFan p.1 FAN_LOW, p.2)
    else (s, [])
  else (s, [])

/-- One pass of the engine part of `loop()` (lines 1084-1174): the
fault/cooldown/hysteresis block followed by `processVentState()`.
`chamber`, `intake`, `ambient` are the cached sensor readings
(`none` = NaN), `inSubMenu`/`activeMode`/`activeTarget` the menu state. -/
def controlTick (s : Ctl) (inSubMenu : Bool) (chamber intake ambient : Option ℚ)
    (activeMode : ℕ) (activeTarget : ℚ) (now : ℕ) : Ctl × List ℕ :=
  let p :=
    match chamber, inSubMenu with
    | some T, true =>
      let p1 := faultBranch s T intake now
      if p1.1.intakeFault = true then (updateFan p1.1 FAN_HIGH, p1.2)
      else if activeMode = 6 then
        let p2 := cooldownBranch p1.1 T ambient now
        (p2.1, p1.2 ++ p2.2)
      else
        let p2 := normalBranch p1.1 T activeTarget now
        (p2.1, p1.2 ++ p2.2)
    | _, _ =>
      let s := updateFan s FAN_OFF
      startCloseVent s now
  let p3 := processVentState p.1 now
  (p3.1, p.2 ++ p3.2)

/-- The safe-exit (double-click) action of `loop()` (lines 1055-1060):
`updateFan(FAN_OFF); startCloseVent();`. -/
def exitActiveMode (s : Ctl) (now : ℕ) : Ctl × List ℕ :=
  startCloseVent (updateFan s FAN_OFF) now

/-- `void handleStartCooldown()` (web entry into cooldown mode): resets the
cooldown session and opens the vent; note that it never calls `updateFan`,
so `fanSpeed` keeps its previous value. -/
def handleStartCooldown (s : Ctl) (chamber : Option ℚ) (now : ℕ) : Ctl × List ℕ :=
  let s := { s with cooldownLastCheckMs := now,
                    cooldownLastTemp := chamber,
                    cooldownFanDuty := 0,
                    cooldownEstSeconds := -1 }
  let s := setFanDuty s 0 true
  startOpenVent s false now

/-- The fan-duty figure reported by `handleStatus()` (and the OLED screens):
`(fanDutyCycle * 100) / 255` in integer arithmetic. -/
def statusFanDuty (d : ℕ) : ℕ := d * 100 / 255

/-- A quiescent engine state: vent closed, fan off (hard-killed), no fault,
no cooldown session — the state after startup once everything is idle. -/
def baseSt : Ctl :=
  { ventState := VENT_CLOSED, ventActionStartMs := 0, servoPulse := SERVO_STOP_PULSE,
    fanSpeed := FAN_OFF, fanDutyCycle := 0, fanPower := false, fanPwm := 0,
    intakeFault := false, cooldownLastTemp := none, cooldownLastCheckMs := 0,
    cooldownFanDuty := 0, cooldownEstSeconds := -1, cooldownProgress := 0 }

/-- An engine state whose fan is running at full command while a mode is
active and the vent is fully open. -/
def runningSt : Ctl :=
  { baseSt with fanSpeed := FAN_HIGH, fanPower := true, fanPwm := 1,
                fanDutyCycle := 255, ventState := VENT_OPEN }

/-- Cooldown started from the quiescent state via the web endpoint at
60 °C chamber temperature (ms 1000).  `fanSpeed` stays `FAN_OFF`. -/
def c4entry : Ctl := (handleStartCooldown baseSt (some 60) 1000).1

/-- First cooldown window (ms 61000): chamber 59.5 °C, slow cooling, duty
ramps to 20 (below the minimum, so power stays cut). -/
def c4tick1 : Ctl := (controlTick c4entry true (some (119/2)) none (some 25) 6 (-2) 61000).1

/-- Second cooldown window (ms 121000): chamber 59 °C, duty ramps to 40. -/
def c4tick2 : Ctl := (controlTick c4tick1 true (some 59) none (some 25) 6 (-2) 121000).1

/-- Third cooldown window (ms 181000): chamber 58.5 °C, duty ramps to 60,
so the power line goes high and the PWM output is 60/255 — while
`fanSpeed` is still `FAN_OFF`. -/
def c4tick3 : Ctl := (controlTick c4tick2 true (some (117/2)) none (some 25) 6 (-2) 181000).1

/-- The safe-exit gesture fired in that state (ms 181100). -/
def c4exit : Ctl := (exitActiveMode c4tick3 181100).1

/-- Cooldown started from the quiescent state via the web endpoint at
60 °C chamber temperature (ms 1000), for the progress trace. -/
def c5entry : Ctl := (handleStartCooldown baseSt (some 60) 1000).1

/-- First cooldown window (ms 61000): chamber has dropped to 58 °C
(ambient 25 °C, so target 28 °C). -/
def c5tick1 : Ctl := (controlTick c5entry true (some 58) none (some 25) 6 (-2) 61000).1

/-- Second cooldown window (ms 121000): chamber has dropped to 56 °C. -/
def c5tick2 : Ctl := (controlTick c5tick1 true (some 56) none (some 25) 6 (-2) 121000).1

theorem setFanDuty_intakeFault (s : Ctl) (d : ℕ) (a : Bool) :
    (setFanDuty s d a).intakeFault = s.intakeFault := by
  simp only [setFanDuty]; split <;> rfl

theorem setFanDuty_ventState (s : Ctl) (d : ℕ) (a : Bool) :
    (setFanDuty s d a).ventState = s.ventState := by
  simp only [setFanDuty]; split <;> rfl

theorem setFanDuty_ventActionStartMs (s : Ctl) (d : ℕ) (a : Bool) :
    (setFanDuty s d a).ventActionStartMs = s.ventActionStartMs := by
  simp only [setFanDuty]; split <;> rfl

theorem setFanDuty_servoPulse (s : Ctl) (d : ℕ) (a : Bool) :
    (setFanDuty s d a).servoPulse = s.servoPulse := by
  simp only [setFanDuty]; split <;> rfl

theorem setFanDuty_fanSpeed (s : Ctl) (d : ℕ) (a : Bool) :
    (setFanDuty s d a).fanSpeed = s.fanSpeed := by
  simp only [setFanDuty]; split <;> rfl

theorem setFanDuty_fanDutyCycle (s : Ctl) (d : ℕ) (a : Bool) :
    (setFanDuty s d a).fanDutyCycle = d := by
  simp only [setFanDuty]; split <;> rfl

theorem setFanDuty_cooldownLastTemp (s : Ctl) (d : ℕ) (a : Bool) :
    (setFanDuty s d a).cooldownLastTemp = s.cooldownLastTemp := by
  simp only [setFanDuty]; split <;> rfl

theorem setFanDuty_cooldownLastCheckMs (s : Ctl) (d : ℕ) (a : Bool) :
    (setFanDuty s d a).cooldownLastCheckMs = s.cooldownLastCheckMs := by
  simp only [setFanDuty]; split <;> rfl

theorem setFanDuty_cooldownFanDuty (s : Ctl) (d : ℕ) (a : Bool) :
    (setFanDuty s d a).cooldownFanDuty = s.cooldownFanDuty := by
  simp only [setFanDuty]; split <;> rfl

theorem setFanDuty_cooldownEstSeconds (s : Ctl) (d : ℕ) (a : Bool) :
    (setFanDuty s d a).cooldownEstSeconds = s.cooldownEstSeconds := by
  simp only [setFanDuty]; split <;> rfl

theorem setFanDuty_cooldownProgress (s : Ctl) (d : ℕ) (a : Bool) :
    (setFanDuty s d a).cooldownProgress = s.cooldownProgress := by
  simp only [setFanDuty]; split <;> rfl

attribute [simp] setFanDuty_intakeFault setFanDuty_ventState setFanDuty_ventActionStartMs
  setFanDuty_servoPulse setFanDuty_fanSpeed setFanDuty_fanDutyCycle
  setFanDuty_cooldownLastTemp setFanDuty_cooldownLastCheckMs setFanDuty_cooldownFanDuty
  setFanDuty_cooldownEstSeconds setFanDuty_cooldownProgress

@[simp] theorem updateFan_fanSpeed (s : Ctl) (sp : FanSpeed) :
    (updateFan s sp).fanSpeed = sp := by
  simp only [updateFan]; split <;> simp_all

@[simp] theorem updateFan_intakeFault (s : Ctl) (sp : FanSpeed) :
    (updateFan s sp).intakeFault = s.intakeFault := by
  simp only [updateFan]; split <;> simp

@[simp] theorem updateFan_ventState (s : Ctl) (sp : FanSpeed) :
    (updateFan s sp).ventState = s.ventState := by
  simp only [updateFan]; split <;> simp

@[simp] theorem updateFan_ventActionStartMs (s : Ctl) (sp : FanSpeed) :
    (updateFan s sp).ventActionStartMs = s.ventActionStartMs := by
  simp only [updateFan]; split <;> simp

@[simp] theorem updateFan_servoPulse (s : Ctl) (sp : FanSpeed) :
    (updateFan s sp).servoPulse = s.servoPulse := by
  simp only [updateFan]; split <;> simp

@[simp] theorem updateFan_cooldownLastTemp (s : Ctl) (sp : FanSpeed) :
    (updateFan s sp).cooldownLastTemp = s.cooldownLastTemp := by
  simp only [updateFan]; split <;> simp

@[simp] theorem updateFan_cooldownLastCheckMs (s : Ctl) (sp : FanSpeed) :
    (updateFan s sp).cooldownLastCheckMs = s.cooldownLastCheckMs := by
  simp only [updateFan]; split <;> simp

@[simp] theorem updateFan_cooldownFanDuty (s : Ctl) (sp : FanSpeed) :
    (updateFan s sp).cooldownFanDuty = s.cooldownFanDuty := by
  simp only [updateFan]; split <;> simp

@[simp] theorem updateFan_cooldownEstSeconds (s : Ctl) (sp : FanSpeed) :
    (updateFan s sp).cooldownEstSeconds = s.cooldownEstSeconds := by
  simp only [updateFan]; split <;> simp

@[simp] theorem updateFan_cooldownProgress (s : Ctl) (sp : FanSpeed) :
    (updateFan s sp).cooldownProgress = s.cooldownProgress := by
  simp only [updateFan]; split <;> simp

@[simp] theorem startOpenVent_intakeFault (s : Ctl) (h : Bool) (now : ℕ) :
    ((startOpenVent s h now).1).intakeFault = s.intakeFault := by
  simp only [startOpenVent]; split_ifs <;> rfl

@[simp] theorem startOpenVent_fanSpeed (s : Ctl) (h : Bool) (now : ℕ) :
    ((startOpenVent s h now).1).fanSpeed = s.fanSpeed := by
  simp only [startOpenVent]; split_ifs <;> rfl

@[simp] theorem startOpenVent_fanPower (s : Ctl) (h : Bool) (now : ℕ) :
    ((startOpenVent s h now).1).fanPower = s.fanPower := by
  simp only [startOpenVent]; split_ifs <;> rfl

@[simp] theorem startOpenVent_fanPwm (s : Ctl) (h : Bool) (now : ℕ) :
    ((startOpenVent s h now).1).fanPwm = s.fanPwm := by
  simp only [startOpenVent]; split_ifs <;> rfl

@[simp] theorem startOpenVent_fanDutyCycle (s : Ctl) (h : Bool) (now : ℕ) :
    ((startOpenVent s h now).1).fanDutyCycle = s.fanDutyCycle := by
  simp only [startOpenVent]; split_ifs <;> rfl

@[simp] theorem startOpenVent_cooldownLastTemp (s : Ctl) (h : Bool) (now : ℕ) :
    ((startOpenVent s h now).1).cooldownLastTemp = s.cooldownLastTemp := by
  simp only [startOpenVent]; split_ifs <;> rfl

@[simp] theorem startOpenVent_cooldownLastCheckMs (s : Ctl) (h : Bool) (now : ℕ) :
    ((startOpenVent s h now).1).cooldownLastCheckMs = s.cooldownLastCheckMs := by
  simp only [startOpenVent]; split_ifs <;> rfl

@[simp] theorem startOpenVent_cooldownFanDuty (s : Ctl) (h : Bool) (now : ℕ) :
    ((startOpenVent s h now).1).cooldownFanDuty = s.cooldownFanDuty := by
  simp only [startOpenVent]; split_ifs <;> rfl

@[simp] theorem startOpenVent_cooldownEstSeconds (s : Ctl) (h : Bool) (now : ℕ) :
    ((startOpenVent s h now).1).cooldownEstSeconds = s.cooldownEstSeconds := by
  simp only [startOpenVent]; split_ifs <;> rfl

@[simp] theorem startOpenVent_cooldownProgress (s : Ctl) (h : Bool) (now : ℕ) :
    ((startOpenVent s h now).1).cooldownProgress = s.cooldownProgress := by
  simp only [startOpenVent]; split_ifs <;> rfl

@[simp] theorem startCloseVent_intakeFault (s : Ctl) (now : ℕ) :
    ((startCloseVent s now).1).intakeFault = s.intakeFault := by
  simp only [startCloseVent]; split_ifs <;> rfl

@[simp] theorem startCloseVent_fanSpeed (s : Ctl) (now : ℕ) :
    ((startCloseVent s now).1).fanSpeed = s.fanSpeed := by
  simp only [startCloseVent]; split_ifs <;> rfl

@[simp] theorem startCloseVent_fanPower (s : Ctl) (now : ℕ) :
    ((startCloseVent s now).1).fanPower = s.fanPower := by
  simp only [startCloseVent]; split_ifs <;> rfl

@[simp] theorem startCloseVent_fanPwm (s : Ctl) (now : ℕ) :
    ((startCloseVent s now).1).fanPwm = s.fanPwm := by
  simp only [startCloseVent]; split_ifs <;> rfl

@[simp] theorem startCloseVent_fanDutyCycle (s : Ctl) (now : ℕ) :
    ((startCloseVent s now).1).fanDutyCycle = s.fanDutyCycle := by
  simp only [startCloseVent]; split_ifs <;> rfl

@[simp] theorem startCloseVent_cooldownLastTemp (s : Ctl) (now : ℕ) :
    ((startCloseVent s now).1).cooldownLastTemp = s.cooldownLastTemp := by
  simp only [startCloseVent]; split_ifs <;> rfl

@[simp] theorem startCloseVent_cooldownLastCheckMs (s : Ctl) (now : ℕ) :
    ((startCloseVent s now).1).cooldownLastCheckMs = s.cooldownLastCheckMs := by
  simp only [startCloseVent]; split_ifs <;> rfl

@[simp] theorem startCloseVent_cooldownFanDuty (s : Ctl) (now : ℕ) :
    ((startCloseVent s now).1).cooldownFanDuty = s.cooldownFanDuty := by
  simp only [startCloseVent]; split_ifs <;> rfl

@[simp] theorem startCloseVent_cooldownEstSeconds (s : Ctl) (now : ℕ) :
    ((startCloseVent s now).1).cooldownEstSeconds = s.cooldownEstSeconds := by
  simp only [startCloseVent]; split_ifs <;> rfl

@[simp] theorem startCloseVent_cooldownProgress (s : Ctl) (now : ℕ) :
    ((startCloseVent s now).1).cooldownProgress = s.cooldownProgress := by
  simp only [startCloseVent]; split_ifs <;> rfl

@[simp] theorem processVentState_intakeFault (s : Ctl) (now : ℕ) :
    ((processVentState s now).1).intakeFault = s.intakeFault := by
  simp only [processVentState]; split_ifs <;> rfl

@[simp] theorem processVentState_fanSpeed (s : Ctl) (now : ℕ) :
    ((processVentState s now).1).fanSpeed = s.fanSpeed := by
  simp only [processVentState]; split_ifs <;> rfl

@[simp] theorem processVentState_fanPower (s : Ctl) (now : ℕ) :
    ((processVentState s now).1).fanPower = s.fanPower := by
  simp only [processVentState]; split_ifs <;> rfl

@[simp] theorem processVentState_fanPwm (s : Ctl) (now : ℕ) :
    ((processVentState s now).1).fanPwm = s.fanPwm := by
  simp only [processVentState]; split_ifs <;> rfl

@[simp] theorem processVentState_fanDutyCycle (s : Ctl) (now : ℕ) :
    ((processVentState s now).1).fanDutyCycle = s.fanDutyCycle := by
  simp only [processVentState]; split_ifs <;> rfl

@[simp] theorem processVentState_cooldownLastTemp (s : Ctl) (now : ℕ) :
    ((processVentState s now).1).cooldownLastTemp = s.cooldownLastTemp := by
  simp only [processVentState]; split_ifs <;> rfl

@[simp] theorem processVentState_cooldownLastCheckMs (s : Ctl) (now : ℕ) :
    ((processVentState s now).1).cooldownLastCheckMs = s.cooldownLastCheckMs := by
  simp only [processVentState]; split_ifs <;> rfl

@[simp] theorem processVentState_cooldownFanDuty (s : Ctl) (now : ℕ) :
    ((processVentState s now).1).cooldownFanDuty = s.cooldownFanDuty := by
  simp only [processVentState]; split_ifs <;> rfl

@[simp] theorem processVentState_cooldownEstSeconds (s : Ctl) (now : ℕ) :
    ((processVentState s now).1).cooldownEstSeconds = s.cooldownEstSeconds := by
  simp only [processVentState]; split_ifs <;> rfl

@[simp] theorem processVentState_cooldownProgress (s : Ctl) (now : ℕ) :
    ((processVentState s now).1).cooldownProgress = s.cooldownProgress := by
  simp only [processVentState]; split_ifs <;> rfl

/-- A full-open command always leaves the vent at or moving toward full
open, whatever the previous state. -/
theorem startOpenVent_full_opens (s : Ctl) (now : ℕ) :
    ((startOpenVent s false now).1).ventState = VENT_OPENING ∨
      ((startOpenVent s false now).1).ventState = VENT_OPEN := by
  cases h : s.ventState <;> simp [startOpenVent, h]

/-- `processVentState` keeps a vent that is at or moving toward full open
at or toward full open. -/
theorem processVentState_keeps_open (s : Ctl) (now : ℕ)
    (h : s.ventState = VENT_OPENING ∨ s.ventState = VENT_OPEN) :
    ((processVentState s now).1).ventState = VENT_OPENING ∨
      ((processVentState s now).1).ventState = VENT_OPEN := by
  rcases h with h | h <;> simp only [processVentState, h] <;> split_ifs <;> simp_all

/-- A close command always leaves the vent at or moving toward closed. -/
theorem startCloseVent_closes (s : Ctl) (now : ℕ) :
    ((startCloseVent s now).1).ventState = VENT_CLOSING ∨
      ((startCloseVent s now).1).ventState = s.ventState := by
  cases h : s.ventState <;> simp [startCloseVent, h]

/-- `processVentState` keeps a vent that is at or moving toward closed at
or toward closed. -/
theorem processVentState_keeps_closed (s : Ctl) (now : ℕ)
    (h : s.ventState = VENT_CLOSING ∨ s.ventState = VENT_CLOSED) :
    ((processVentState s now).1).ventState = VENT_CLOSING ∨
      ((processVentState s now).1).ventState = VENT_CLOSED := by
  rcases h with h | h <;> simp only [processVentState, h] <;> split_ifs <;> simp_all

/-- Commanding `FAN_OFF` from a different commanded level hard-kills. -/
theorem updateFan_off_kills (s : Ctl) (h : s.fanSpeed ≠ FAN_OFF) :
    (updateFan s FAN_OFF).fanPower = false ∧ (updateFan s FAN_OFF).fanPwm = 0 ∧
      (updateFan s FAN_OFF).fanDutyCycle = 0 := by
  have hne : FAN_OFF ≠ s.fanSpeed := fun hc => h hc.symm
  simp [updateFan, hne, setFanDuty, NORMAL_MIN_DUTY]

@[simp] theorem faultBranch_cooldownLastTemp (s : Ctl) (T : ℚ) (i : Option ℚ) (now : ℕ) :
    ((faultBranch s T i now).1).cooldownLastTemp = s.cooldownLastTemp := by
  simp only [faultBranch]; split_ifs <;> simp

@[simp] theorem faultBranch_cooldownLastCheckMs (s : Ctl) (T : ℚ) (i : Option ℚ) (now : ℕ) :
    ((faultBranch s T i now).1).cooldownLastCheckMs = s.cooldownLastCheckMs := by
  simp only [faultBranch]; split_ifs <;> simp

@[simp] theorem faultBranch_cooldownFanDuty (s : Ctl) (T : ℚ) (i : Option ℚ) (now : ℕ) :
    ((faultBranch s T i now).1).cooldownFanDuty = s.cooldownFanDuty := by
  simp only [faultBranch]; split_ifs <;> simp

@[simp] theorem faultBranch_cooldownEstSeconds (s : Ctl) (T : ℚ) (i : Option ℚ) (now : ℕ) :
    ((faultBranch s T i now).1).cooldownEstSeconds = s.cooldownEstSeconds := by
  simp only [faultBranch]; split_ifs <;> simp

@[simp] theorem faultBranch_cooldownProgress (s : Ctl) (T : ℚ) (i : Option ℚ) (now : ℕ) :
    ((faultBranch s T i now).1).cooldownProgress = s.cooldownProgress := by
  simp only [faultBranch]; split_ifs <;> simp

@[simp] theorem ite_fst {c : Prop} [Decidable c] (a b : Ctl × List ℕ) :
    (if c then a else b).1 = if c then a.1 else b.1 := by
  split <;> rfl

@[simp] theorem ite_intakeFault {c : Prop} [Decidable c] (a b : Ctl) :
    (if c then a else b).intakeFault = if c then a.intakeFault else b.intakeFault := by
  split <;> rfl

@[simp] theorem ite_cooldownLastCheckMs {c : Prop} [Decidable c] (a b : Ctl) :
    (if c then a else b).cooldownLastCheckMs =
      if c then a.cooldownLastCheckMs else b.cooldownLastCheckMs := by
  split <;> rfl

@[simp] theorem ite_cooldownLastTemp {c : Prop} [Decidable c] (a b : Ctl) :
    (if c then a else b).cooldownLastTemp =
      if c then a.cooldownLastTemp else b.cooldownLastTemp := by
  split <;> rfl

@[simp] theorem ite_cooldownFanDuty {c : Prop} [Decidable c] (a b : Ctl) :
    (if c then a else b).cooldownFanDuty =
      if c then a.cooldownFanDuty else b.cooldownFanDuty := by
  split <;> rfl

@[simp] theorem ite_cooldownProgress {c : Prop} [Decidable c] (a b : Ctl) :
    (if c then a else b).cooldownProgress =
      if c then a.cooldownProgress else b.cooldownProgress := by
  split <;> rfl

@[simp] theorem ite_ventState {c : Prop} [Decidable c] (a b : Ctl) :
    (if c then a else b).ventState = if c then a.ventState else b.ventState := by
  split <;> rfl

@[simp] theorem ite_fanSpeed {c : Prop} [Decidable c] (a b : Ctl) :
    (if c then a else b).fanSpeed = if c then a.fanSpeed else b.fanSpeed := by
  split <;> rfl

@[simp] theorem ite_fanPwm {c : Prop} [Decidable c] (a b : Ctl) :
    (if c then a else b).fanPwm = if c then a.fanPwm else b.fanPwm := by
  split <;> rfl

@[simp] theorem ite_fanPower {c : Prop} [Decidable c] (a b : Ctl) :
    (if c then a else b).fanPower = if c then a.fanPower else b.fanPower := by
  split <;> rfl

@[simp] theorem ite_fanDutyCycle {c : Prop} [Decidable c] (a b : Ctl) :
    (if c then a else b).fanDutyCycle = if c then a.fanDutyCycle else b.fanDutyCycle := by
  split <;> rfl

theorem cooldownWindow_intakeFault (s : Ctl) (T target : ℚ) (f : Bool) (now : ℕ) :
    ((cooldownWindow s T target f now).1).intakeFault = s.intakeFault := by
  simp [cooldownWindow]

theorem cooldownBranch_intakeFault (s : Ctl) (T : ℚ) (a : Option ℚ) (now : ℕ) :
    ((cooldownBranch s T a now).1).intakeFault = s.intakeFault := by
  simp [cooldownBranch, cooldownWindow_intakeFault]

theorem normalBranch_intakeFault (s : Ctl) (T tgt : ℚ) (now : ℕ) :
    ((normalBranch s T tgt now).1).intakeFault = s.intakeFault := by
  simp only [normalBranch]; split_ifs <;> simp

/-- Claim C1, counterexample: calling `setFanDuty(0, false)` does NOT
hard-kill the fan — the power line is driven HIGH and the PWM output is the
normal minimum 51/255, not 0, so the claimed "regardless of the flag" fails
when `allowBelowMinimum` is false. -/
theorem setFanDuty_zero_without_flag_not_killed :
    (setFanDuty baseSt 0 false).fanPower = true ∧
      (setFanDuty baseSt 0 false).fanPwm = 51 / 255 ∧
      ¬ (setFanDuty baseSt 0 false).fanPwm = 0 := by
  refine ⟨rfl, by norm_num [setFanDuty, baseSt, NORMAL_MIN_DUTY], ?_⟩
  norm_num [setFanDuty, baseSt, NORMAL_MIN_DUTY]

/-- Claim C1, amended: `setFanDuty(0, allowBelowMinimum)` drives the power
line low and forces the PWM to 0 exactly when `allowBelowMinimum` is true
(which is how every `d == 0` call site in the program invokes it); with
`allowBelowMinimum = false` a zero duty leaves the power line HIGH with the
PWM held at the configured minimum 51/255. -/
theorem setFanDuty_zero_kills_iff_flag (s : Ctl) :
    (setFanDuty s 0 true).fanPower = false ∧
      (setFanDuty s 0 true).fanPwm = 0 ∧
      (setFanDuty s 0 true).fanDutyCycle = 0 ∧
      (setFanDuty s 0 false).fanPower = true ∧
      (setFanDuty s 0 false).fanPwm = 51 / 255 := by
  refine ⟨rfl, rfl, rfl, rfl, ?_⟩
  norm_num [setFanDuty, NORMAL_MIN_DUTY]

/-- Claim C8: commanding `open(full)` while the vent is already `FullOpen`
or moving toward it, `open(half)` while at or moving toward `HalfOpen`, or
`close()` while at or moving toward `Closed`, is a no-op: the whole state
(vent state, transition start timestamp, last servo output) is unchanged
and no servo pulse is emitted. -/
theorem vent_commands_idempotent (s : Ctl) (now : ℕ) :
    ((s.ventState = VENT_OPEN ∨ s.ventState = VENT_OPENING) →
        startOpenVent s false now = (s, [])) ∧
      ((s.ventState = VENT_HALF_OPEN ∨ s.ventState = VENT_HALF_OPENING) →
        startOpenVent s true now = (s, [])) ∧
      ((s.ventState = VENT_CLOSED ∨ s.ventState = VENT_CLOSING) →
        startCloseVent s now = (s, [])) := by
  refine ⟨?_, ?_, ?_⟩ <;> rintro (h | h) <;> simp [startOpenVent, startCloseVent, h]

/-- Claim C8, witness: at a state fully open (resp. half open, closed) the
corresponding command leaves the state and output untouched. -/
theorem vent_commands_idempotent_witness :
    startOpenVent { baseSt with ventState := VENT_OPEN } false 7 =
        ({ baseSt with ventState := VENT_OPEN }, []) ∧
      startOpenVent { baseSt with ventState := VENT_HALF_OPEN } true 7 =
        ({ baseSt with ventState := VENT_HALF_OPEN }, []) ∧
      startCloseVent baseSt 7 = (baseSt, []) :=
  ⟨(vent_commands_idempotent { baseSt with ventState := VENT_OPEN } 7).1 (Or.inl rfl),
   (vent_commands_idempotent { baseSt with ventState := VENT_HALF_OPEN } 7).2.1 (Or.inl rfl),
   (vent_commands_idempotent baseSt 7).2.2 (Or.inl rfl)⟩

/-- Claim C9: every `setFanDuty` call yields either a hard-killed output
(power line low, PWM 0) or a powered output whose PWM is at least the
configured minimum 51/255 — never a nonzero PWM below the minimum.  In
particular the cooldown duties 20 and 40 (passed with
`allowBelowMinimum = true`) cut the power entirely while the stored duty
field — reported by the display and the `/status` endpoint as
`(fanDutyCycle * 100) / 255` — stays nonzero (7 % and 15 %). -/
theorem fan_output_zero_or_min (s : Ctl) (d : ℕ) (allowBelow20 : Bool) :
    (((setFanDuty s d allowBelow20).fanPower = false ∧
        (setFanDuty s d allowBelow20).fanPwm = 0) ∨
      ((setFanDuty s d allowBelow20).fanPower = true ∧
        (51 : ℚ) / 255 ≤ (setFanDuty s d allowBelow20).fanPwm)) ∧
      (setFanDuty s 20 true).fanPower = false ∧
      (setFanDuty s 20 true).fanPwm = 0 ∧
      (setFanDuty s 20 true).fanDutyCycle = 20 ∧
      statusFanDuty 20 = 7 ∧
      (setFanDuty s 40 true).fanPower = false ∧
      (setFanDuty s 40 true).fanPwm = 0 ∧
      (setFanDuty s 40 true).fanDutyCycle = 40 ∧
      statusFanDuty 40 = 15 := by
  refine ⟨?_, rfl, rfl, rfl, rfl, rfl, rfl, rfl, rfl⟩
  by_cases ha : allowBelow20 = true
  · by_cases hd : d < NORMAL_MIN_DUTY
    · exact Or.inl ⟨by simp [setFanDuty, ha, hd], by simp [setFanDuty, ha, hd]⟩
    · have hpow : (setFanDuty s d allowBelow20).fanPower = true := by
        simp [setFanDuty, ha, hd]
      have hpwm : (setFanDuty s d allowBelow20).fanPwm = (d : ℚ) / 255 := by
        simp [setFanDuty, ha, hd]
      have h51 : (51 : ℚ) ≤ (d : ℚ) := by
        exact_mod_cast Nat.le_of_not_lt (by simpa [NORMAL_MIN_DUTY] using hd)
      refine Or.inr ⟨hpow, ?_⟩
      rw [hpwm]
      exact div_le_div_of_nonneg_right h51 (by norm_num) |>.trans_eq rfl
  · have hpow : (setFanDuty s d allowBelow20).fanPower = true := by
      simp [setFanDuty, ha]
    have hpwm : (setFanDuty s d allowBelow20).fanPwm = ((max d NORMAL_MIN_DUTY : ℕ) : ℚ) / 255 := by
      simp [setFanDuty, ha]
    have h51 : (51 : ℚ) ≤ ((max d NORMAL_MIN_DUTY : ℕ) : ℚ) := by
      have : NORMAL_MIN_DUTY ≤ max d NORMAL_MIN_DUTY := le_max_right _ _
      exact_mod_cast this
    refine Or.inr ⟨hpow, ?_⟩
    rw [hpwm]
    exact div_le_div_of_nonneg_right h51 (by norm_num) |>.trans_eq rfl

/-- Claim C7: with the vent `Closed` and the chamber temperature held
strictly inside the stable band `target − 2 < T < target − 1`, a tick of
the hysteresis controller is a complete no-op: the state (hence the vent,
which stays `Closed`) is unchanged and no command or servo pulse is issued;
the same holds for the whole engine tick when no fault is pending and the
intake reading is absent.  A constant `T` in the band therefore never
causes oscillation between two vent states. -/
theorem hysteresis_closed_stable_band (s : Ctl) (T target : ℚ) (now : ℕ)
    (hv : s.ventState = VENT_CLOSED)
    (h1 : target - 2 < T) (h2 : T < target - 1) :
    normalBranch s T target now = (s, []) ∧
      (s.intakeFault = false → ∀ amb : Option ℚ, ∀ mode : ℕ, mode ≠ 6 →
        controlTick s true (some T) none amb mode target now = (s, [])) := by
  have hnb : normalBranch s T target now = (s, []) := by
    have hfull : ¬ T > target + HYSTERESIS_TO_FULL := by
      simp only [HYSTERESIS_TO_FULL]; push_neg; linarith
    have hhalf : ¬ T > target + HYSTERESIS_TO_HALF := by
      simp only [HYSTERESIS_TO_HALF]; push_neg; linarith
    simp [normalBranch, hv, hfull, hhalf]
  refine ⟨hnb, fun hf amb mode hm => ?_⟩
  have hfb : faultBranch s T none now = (s, []) := by
    simp [faultBranch, hf]
  have hpv : processVentState s now = (s, []) := by
    simp [processVentState, hv]
  simp [controlTick, hfb, hf, hm, hnb, hpv]

/-- Claim C7, witness: at target 30 °C, vent closed, chamber 28.5 °C
(inside the band), both the hysteresis branch and the full tick leave the
state untouched and emit nothing. -/
theorem hysteresis_closed_stable_band_witness :
    normalBranch baseSt (57/2) 30 777 = (baseSt, []) ∧
      controlTick baseSt true (some (57/2)) none (some 25) 2 30 777 = (baseSt, []) := by
  have h := hysteresis_closed_stable_band baseSt (57/2) 30 777 rfl (by norm_num) (by norm_num)
  exact ⟨h.1, h.2 rfl (some 25) 2 (by norm_num)⟩

/-- Claim C3, counterexample: with a mode active (`inSubMenu`), the fan
running at `FAN_HIGH` and the vent fully open, a tick whose chamber
reading is unknown does NOT hold the last commanded state: the engine
commands the fan off and the vent closed (and emits servo pulses). -/
theorem chamber_unknown_changes_state :
    ((controlTick runningSt true none (some 30) none 2 60 5000).1).fanSpeed = FAN_OFF ∧
      ((controlTick runningSt true none (some 30) none 2 60 5000).1).ventState = VENT_CLOSING ∧
      runningSt.fanSpeed = FAN_HIGH ∧
      runningSt.ventState = VENT_OPEN ∧
      (controlTick runningSt true none (some 30) none 2 60 5000).2 =
        [SERVO_STOP_PULSE, SERVO_FORWARD_PULSE] := by
  refine ⟨by decide, by decide, rfl, rfl, by decide⟩

/-- Claim C3, amended: when the chamber reading is unknown while a mode is
active, the engine does not hold the last commanded actuator state — it
behaves exactly as in the no-mode case, commanding the fan off (with a
hard power kill whenever the commanded level actually changes) and the
vent closed; the unknown value itself is never used as a number, and the
fault flag is untouched. -/
theorem chamber_unknown_forces_off_close (s : Ctl)
    (intake ambient : Option ℚ) (mode : ℕ) (target : ℚ) (now : ℕ) :
    ((controlTick s true none intake ambient mode target now).1).fanSpeed = FAN_OFF ∧
      (s.fanSpeed ≠ FAN_OFF →
        ((controlTick s true none intake ambient mode target now).1).fanPower = false ∧
        ((controlTick s true none intake ambient mode target now).1).fanPwm = 0 ∧
        ((controlTick s true none intake ambient mode target now).1).fanDutyCycle = 0) ∧
      (((controlTick s true none intake ambient mode target now).1).ventState = VENT_CLOSING ∨
        ((controlTick s true none intake ambient mode target now).1).ventState = VENT_CLOSED) ∧
      ((controlTick s true none intake ambient mode target now).1).intakeFault =
        s.intakeFault := by
  have hstep : controlTick s true none intake ambient mode target now =
      (let s1 := updateFan s FAN_OFF
       let p := startCloseVent s1 now
       let p3 := processVentState p.1 now
       (p3.1, p.2 ++ p3.2)) := by
    simp [controlTick]
  rw [hstep]
  refine ⟨by simp, fun hne => ?_, ?_, by simp⟩
  · have hk := updateFan_off_kills s hne
    simp [hk.1, hk.2.1, hk.2.2]
  · apply processVentState_keeps_closed
    rcases startCloseVent_closes (updateFan s FAN_OFF) now with h | h
    · exact Or.inl h
    · rw [h]
      simp only [updateFan_ventState]
      rcases hvs : (updateFan s FAN_OFF).ventState <;> simp_all [startCloseVent]

/-- Claim C3 amended, witness: the amended statement applied at the
counterexample state. -/
theorem chamber_unknown_forces_off_close_witness :
    ((controlTick runningSt true none (some 30) none 2 60 5000).1).fanSpeed = FAN_OFF ∧
      ((controlTick runningSt true none (some 30) none 2 60 5000).1).fanPwm = 0 := by
  have h := chamber_unknown_forces_off_close runningSt (some 30) none 2 60 5000
  exact ⟨h.1, (h.2.1 (by decide)).2.1⟩

/-- Claim C10: while no mode is active, a tick never changes the
intake-fault flag — in particular a clear flag stays clear no matter how
far the intake reading exceeds the chamber reading — and instead commands
the fan off and the vent closed. -/
theorem main_menu_no_fault_supervision (s : Ctl)
    (chamber intake ambient : Option ℚ) (mode : ℕ) (target : ℚ) (now : ℕ) :
    ((controlTick s false chamber intake ambient mode target now).1).intakeFault =
        s.intakeFault ∧
      (s.intakeFault = false →
        ((controlTick s false chamber intake ambient mode target now).1).intakeFault = false) ∧
      ((controlTick s false chamber intake ambient mode target now).1).fanSpeed = FAN_OFF ∧
      (((controlTick s false chamber intake ambient mode target now).1).ventState = VENT_CLOSING ∨
        ((controlTick s false chamber intake ambient mode target now).1).ventState =
          VENT_CLOSED) := by
  have hstep : controlTick s false chamber intake ambient mode target now =
      (let s1 := updateFan s FAN_OFF
       let p := startCloseVent s1 now
       let p3 := processVentState p.1 now
       (p3.1, p.2 ++ p3.2)) := by
    cases chamber <;> simp [controlTick]
  rw [hstep]
  refine ⟨by simp, fun hf => by simp [hf], by simp, ?_⟩
  apply processVentState_keeps_closed
  rcases startCloseVent_closes (updateFan s FAN_OFF) now with h | h
  · exact Or.inl h
  · rw [h]
    simp only [updateFan_ventState]
    rcases hvs : (updateFan s FAN_OFF).ventState <;> simp_all [startCloseVent]

/-- Claim C10, witness: in the main menu with a grossly overheated intake
(90 °C vs 20 °C chamber) the fault flag stays clear and the tick commands
fan off and vent close. -/
theorem main_menu_no_fault_supervision_witness :
    ((controlTick runningSt false (some 20) (some 90) none 2 60 5000).1).intakeFault = false ∧
      ((controlTick runningSt false (some 20) (some 90) none 2 60 5000).1).fanSpeed =
        FAN_OFF := by
  have h := main_menu_no_fault_supervision runningSt (some 20) (some 90) none 2 60 5000
  exact ⟨h.2.1 rfl, h.2.2.1⟩

theorem controlTick_cooldown (s : Ctl) (T : ℚ) (amb : Option ℚ) (tgt : ℚ) (now : ℕ)
    (hf : s.intakeFault = false) :
    controlTick s true (some T) none amb 6 tgt now =
      ((processVentState (cooldownBranch s T amb now).1 now).1,
       (cooldownBranch s T amb now).2 ++
         (processVentState (cooldownBranch s T amb now).1 now).2) := by
  have hfb : faultBranch s T none now = (s, []) := by
    simp [faultBranch, hf]
  simp [controlTick, hfb, hf]

theorem cooldownBranch_window (s : Ctl) (T : ℚ) (amb : Option ℚ) (now : ℕ)
    (hc0 : ¬ s.cooldownLastCheckMs = 0) (hL : ¬ s.cooldownLastTemp = none)
    (hv : s.ventState = VENT_OPEN ∨ s.ventState = VENT_OPENING)
    (hwin : COOLDOWN_SAMPLE_MS ≤ now - s.cooldownLastCheckMs) :
    cooldownBranch s T amb now =
      cooldownWindow s T (cooldownTarget amb) (decide (T ≤ cooldownTarget amb + 1/2)) now := by
  rcases hv with hv | hv <;>
    simp [cooldownBranch, hc0, hL, hv, hwin]

theorem processVentState_stable (s : Ctl) (now : ℕ)
    (h : s.ventState = VENT_OPEN ∨ s.ventState = VENT_HALF_OPEN ∨
      s.ventState = VENT_CLOSED) :
    processVentState s now = (s, []) := by
  rcases h with h | h | h <;> simp [processVentState, h]

theorem c4entry_eq : c4entry =
    { baseSt with ventState := VENT_OPENING, ventActionStartMs := 1000,
                  servoPulse := SERVO_REVERSE_PULSE,
                  cooldownLastTemp := some 60, cooldownLastCheckMs := 1000,
                  cooldownEstSeconds := -1 } := by
  norm_num [c4entry, handleStartCooldown, setFanDuty, startOpenVent, baseSt,
    NORMAL_MIN_DUTY]

theorem c4window1 : cooldownWindow
    { baseSt with ventState := VENT_OPENING, ventActionStartMs := 1000,
                  servoPulse := SERVO_REVERSE_PULSE,
                  cooldownLastTemp := some 60, cooldownLastCheckMs := 1000,
                  cooldownEstSeconds := -1 } (119/2) 28 false 61000 =
    ({ baseSt with ventState := VENT_OPENING, ventActionStartMs := 1000,
                   servoPulse := SERVO_REVERSE_PULSE,
                   fanDutyCycle := 20,
                   cooldownLastTemp := some (119/2), cooldownLastCheckMs := 61000,
                   cooldownFanDuty := 20, cooldownEstSeconds := 3780,
                   cooldownProgress := 1/64 }, []) := by
  norm_num [cooldownWindow, setFanDuty, startCloseVent, constrain, baseSt,
    NORMAL_MIN_DUTY, COOLDOWN_RATE_DEG_PER_MIN]
  rfl

theorem c4vent1 : processVentState
    ({ baseSt with ventState := VENT_OPENING, ventActionStartMs := 1000,
                   servoPulse := SERVO_REVERSE_PULSE,
                   fanDutyCycle := 20,
                   cooldownLastTemp := some (119/2), cooldownLastCheckMs := 61000,
                   cooldownFanDuty := 20, cooldownEstSeconds := 3780,
                   cooldownProgress := 1/64 }) 61000 =
    ({ baseSt with ventState := VENT_OPEN, ventActionStartMs := 1000,
                   servoPulse := SERVO_STOP_PULSE,
                   fanDutyCycle := 20,
                   cooldownLastTemp := some (119/2), cooldownLastCheckMs := 61000,
                   cooldownFanDuty := 20, cooldownEstSeconds := 3780,
                   cooldownProgress := 1/64 }, [SERVO_STOP_PULSE]) := by
  norm_num [processVentState, baseSt, SERVO_OPEN_TIME]

theorem c4tick1_eq : c4tick1 =
    { baseSt with ventState := VENT_OPEN, ventActionStartMs := 1000,
                  servoPulse := SERVO_STOP_PULSE,
                  fanDutyCycle := 20,
                  cooldownLastTemp := some (119/2), cooldownLastCheckMs := 61000,
                  cooldownFanDuty := 20, cooldownEstSeconds := 3780,
                  cooldownProgress := 1/64 } := by
  rw [c4tick1, c4entry_eq, controlTick_cooldown _ _ _ _ _ (by rfl),
    cooldownBranch_window _ _ _ _ (by decide) (by decide) (Or.inr (by rfl)) (by decide)]
  rw [show cooldownTarget (some 25) = 28 by
    norm_num [cooldownTarget, COOLDOWN_TARGET_OFFSET]]
  rw [show decide ((119/2 : ℚ) ≤ 28 + 1/2) = false by
    rw [decide_eq_false_iff_not]; norm_num]
  rw [c4window1, c4vent1]

theorem c4window2 : cooldownWindow
    { baseSt with ventState := VENT_OPEN, ventActionStartMs := 1000,
                  servoPulse := SERVO_STOP_PULSE,
                  fanDutyCycle := 20,
                  cooldownLastTemp := some (119/2), cooldownLastCheckMs := 61000,
                  cooldownFanDuty := 20, cooldownEstSeconds := 3780,
                  cooldownProgress := 1/64 } 59 28 false 121000 =
    ({ baseSt with ventState := VENT_OPEN, ventActionStartMs := 1000,
                   servoPulse := SERVO_STOP_PULSE,
                   fanDutyCycle := 40,
                   cooldownLastTemp := some 59, cooldownLastCheckMs := 121000,
                   cooldownFanDuty := 40, cooldownEstSeconds := 3720,
                   cooldownProgress := 1/63 }, []) := by
  norm_num [cooldownWindow, setFanDuty, startCloseVent, constrain, baseSt,
    NORMAL_MIN_DUTY, COOLDOWN_RATE_DEG_PER_MIN]
  rfl

theorem c4tick2_eq : c4tick2 =
    { baseSt with ventState := VENT_OPEN, ventActionStartMs := 1000,
                  servoPulse := SERVO_STOP_PULSE,
                  fanDutyCycle := 40,
                  cooldownLastTemp := some 59, cooldownLastCheckMs := 121000,
                  cooldownFanDuty := 40, cooldownEstSeconds := 3720,
                  cooldownProgress := 1/63 } := by
  rw [c4tick2, c4tick1_eq, controlTick_cooldown _ _ _ _ _ (by rfl),
    cooldownBranch_window _ _ _ _ (by decide) (by decide) (Or.inl (by rfl)) (by decide)]
  rw [show cooldownTarget (some 25) = 28 by
    norm_num [cooldownTarget, COOLDOWN_TARGET_OFFSET]]
  rw [show decide ((59 : ℚ) ≤ 28 + 1/2) = false by
    rw [decide_eq_false_iff_not]; norm_num]
  rw [c4window2, processVentState_stable _ _ (Or.inl (by rfl))]

theorem c4window3 : cooldownWindow
    { baseSt with ventState := VENT_OPEN, ventActionStartMs := 1000,
                  servoPulse := SERVO_STOP_PULSE,
                  fanDutyCycle := 40,
                  cooldownLastTemp := some 59, cooldownLastCheckMs := 121000,
                  cooldownFanDuty := 40, cooldownEstSeconds := 3720,
                  cooldownProgress := 1/63 } (117/2) 28 false 181000 =
    ({ baseSt with ventState := VENT_OPEN, ventActionStartMs := 1000,
                   servoPulse := SERVO_STOP_PULSE,
                   fanDutyCycle := 60, fanPower := true, fanPwm := 60/255,
                   cooldownLastTemp := some (117/2), cooldownLastCheckMs := 181000,
                   cooldownFanDuty := 60, cooldownEstSeconds := 3660,
                   cooldownProgress := 1/62 }, []) := by
  norm_num [cooldownWindow, setFanDuty, startCloseVent, constrain, baseSt,
    NORMAL_MIN_DUTY, COOLDOWN_RATE_DEG_PER_MIN]
  rw [show Int.toNat 60 = 60 from rfl]
  norm_num

theorem c4tick3_eq : c4tick3 =
    { baseSt with ventState := VENT_OPEN, ventActionStartMs := 1000,
                  servoPulse := SERVO_STOP_PULSE,
                  fanDutyCycle := 60, fanPower := true, fanPwm := 60/255,
                  cooldownLastTemp := some (117/2), cooldownLastCheckMs := 181000,
                  cooldownFanDuty := 60, cooldownEstSeconds := 3660,
                  cooldownProgress := 1/62 } := by
  rw [c4tick3, c4tick2_eq, controlTick_cooldown _ _ _ _ _ (by rfl),
    cooldownBranch_window _ _ _ _ (by decide) (by decide) (Or.inl (by rfl)) (by decide)]
  rw [show cooldownTarget (some 25) = 28 by
    norm_num [cooldownTarget, COOLDOWN_TARGET_OFFSET]]
  rw [show decide ((117/2 : ℚ) ≤ 28 + 1/2) = false by
    rw [decide_eq_false_iff_not]; norm_num]
  rw [c4window3, processVentState_stable _ _ (Or.inl (by rfl))]

theorem c4exit_eq : c4exit =
    { baseSt with ventState := VENT_CLOSING, ventActionStartMs := 181100,
                  servoPulse := SERVO_FORWARD_PULSE,
                  fanDutyCycle := 60, fanPower := true, fanPwm := 60/255,
                  cooldownLastTemp := some (117/2), cooldownLastCheckMs := 181000,
                  cooldownFanDuty := 60, cooldownEstSeconds := 3660,
                  cooldownProgress := 1/62 } := by
  rw [c4exit, c4tick3_eq]
  norm_num [exitActiveMode, updateFan, startCloseVent, baseSt]

/-- Claim C4: the safe-exit gesture does NOT hard-kill the fan for every
prior sub-controller state.  Reachable failing run: cooldown is started
from the quiescent main menu through the web endpoint (which never touches
`fanSpeed`, leaving it `FAN_OFF`), three slow 60 s windows ramp the duty
to 60 via `setFanDuty(60, true)` (power HIGH, PWM 60/255), and the
double-click exit's `updateFan(FAN_OFF)` is then a no-op because
`fanSpeed` is already `FAN_OFF` — the fan keeps spinning at duty 60 after
the mode is exited, contradicting the spec and the sketch's own 2.3
changelog ("True 0 RPM (hard kill) when fan is OFF in any context",
"Fixed PWM lingering in main menu after exiting modes"). -/
theorem cooldown_exit_leaves_fan_spinning :
    c4tick3.fanSpeed = FAN_OFF ∧
      c4tick3.fanPower = true ∧
      c4tick3.fanPwm = 60 / 255 ∧
      c4exit.fanSpeed = FAN_OFF ∧
      c4exit.fanPower = true ∧
      c4exit.fanPwm = 60 / 255 ∧
      c4exit.fanDutyCycle = 60 ∧
      ¬ c4exit.fanPwm = 0 ∧
      c4exit.ventState = VENT_CLOSING := by
  rw [c4tick3_eq, c4exit_eq]
  refine ⟨rfl, rfl, rfl, rfl, rfl, rfl, rfl, by norm_num, rfl⟩

theorem cooldownBranch_window_fst (s : Ctl) (T : ℚ) (amb : Option ℚ) (now : ℕ)
    (hc0 : ¬ s.cooldownLastCheckMs = 0) (hL : ¬ s.cooldownLastTemp = none)
    (hwin : COOLDOWN_SAMPLE_MS ≤ now - s.cooldownLastCheckMs) :
    ∃ q : Ctl, (cooldownBranch s T amb now).1 =
        (cooldownWindow q T (cooldownTarget amb)
          (decide (T ≤ cooldownTarget amb + 1/2)) now).1 ∧
      q.cooldownLastTemp = s.cooldownLastTemp ∧
      q.cooldownLastCheckMs = s.cooldownLastCheckMs ∧
      q.cooldownFanDuty = s.cooldownFanDuty := by
  refine ⟨(if decide (T ≤ cooldownTarget amb + 1/2) = false ∧
      ¬ s.ventState = VENT_OPEN ∧ ¬ s.ventState = VENT_OPENING then
        startOpenVent s false now else (s, [])).1, ?_, by simp, by simp, by simp⟩
  simp [cooldownBranch, hc0, hL, hwin]

theorem cooldownWindow_step (q : Ctl) (T target : ℚ) (now : ℕ) (L : ℚ)
    (hL : q.cooldownLastTemp = some L) (adj : ℤ)
    (hadj : adj = (if (L - T) * (60000 / ((now - q.cooldownLastCheckMs : ℕ) : ℚ)) <
          COOLDOWN_RATE_DEG_PER_MIN - 3/10 then 20
        else if COOLDOWN_RATE_DEG_PER_MIN + 3/10 <
          (L - T) * (60000 / ((now - q.cooldownLastCheckMs : ℕ) : ℚ)) then -20 else 0)) :
    ((cooldownWindow q T target false now).1).cooldownFanDuty =
        (constrain ((q.cooldownFanDuty : ℤ) + adj) 0 255).toNat ∧
      ((cooldownWindow q T target false now).1).fanDutyCycle =
        (constrain ((q.cooldownFanDuty : ℤ) + adj) 0 255).toNat ∧
      ((cooldownWindow q T target false now).1).cooldownProgress =
        (if 1/2 < L - target then constrain ((L - T) / (L - target)) 0 1 else 1) ∧
      ((cooldownWindow q T target false now).1).cooldownLastTemp = some T ∧
      ((constrain ((q.cooldownFanDuty : ℤ) + adj) 0 255).toNat < NORMAL_MIN_DUTY →
        ((cooldownWindow q T target false now).1).fanPwm = 0 ∧
        ((cooldownWindow q T target false now).1).fanPower = false) ∧
      (¬ (constrain ((q.cooldownFanDuty : ℤ) + adj) 0 255).toNat < NORMAL_MIN_DUTY →
        ((cooldownWindow q T target false now).1).fanPwm =
            (((constrain ((q.cooldownFanDuty : ℤ) + adj) 0 255).toNat : ℚ)) / 255 ∧
        ((cooldownWindow q T target false now).1).fanPower = true) := by
  subst hadj
  refine ⟨by simp [cooldownWindow, hL], by simp [cooldownWindow, hL],
    by simp [cooldownWindow, hL], by simp [cooldownWindow, hL], fun hlt => ?_, fun hge => ?_⟩
  · constructor <;> simp [cooldownWindow, hL, setFanDuty, hlt]
  · constructor <;> simp [cooldownWindow, hL, setFanDuty, hge]

theorem c5entry_eq : c5entry =
    { baseSt with ventState := VENT_OPENING, ventActionStartMs := 1000,
                  servoPulse := SERVO_REVERSE_PULSE,
                  cooldownLastTemp := some 60, cooldownLastCheckMs := 1000,
                  cooldownEstSeconds := -1 } := by
  norm_num [c5entry, handleStartCooldown, setFanDuty, startOpenVent, baseSt,
    NORMAL_MIN_DUTY]

theorem c5window1 : cooldownWindow
    { baseSt with ventState := VENT_OPENING, ventActionStartMs := 1000,
                  servoPulse := SERVO_REVERSE_PULSE,
                  cooldownLastTemp := some 60, cooldownLastCheckMs := 1000,
                  cooldownEstSeconds := -1 } 58 28 false 61000 =
    ({ baseSt with ventState := VENT_OPENING, ventActionStartMs := 1000,
                   servoPulse := SERVO_REVERSE_PULSE,
                   cooldownLastTemp := some 58, cooldownLastCheckMs := 61000,
                   cooldownEstSeconds := 900,
                   cooldownProgress := 1/16 }, []) := by
  norm_num [cooldownWindow, setFanDuty, startCloseVent, constrain, baseSt,
    NORMAL_MIN_DUTY, COOLDOWN_RATE_DEG_PER_MIN]

theorem c5vent1 : processVentState
    ({ baseSt with ventState := VENT_OPENING, ventActionStartMs := 1000,
                   servoPulse := SERVO_REVERSE_PULSE,
                   cooldownLastTemp := some 58, cooldownLastCheckMs := 61000,
                   cooldownEstSeconds := 900,
                   cooldownProgress := 1/16 }) 61000 =
    ({ baseSt with ventState := VENT_OPEN, ventActionStartMs := 1000,
                   servoPulse := SERVO_STOP_PULSE,
                   cooldownLastTemp := some 58, cooldownLastCheckMs := 61000,
                   cooldownEstSeconds := 900,
                   cooldownProgress := 1/16 }, [SERVO_STOP_PULSE]) := by
  norm_num [processVentState, baseSt, SERVO_OPEN_TIME]

theorem c5tick1_eq : c5tick1 =
    { baseSt with ventState := VENT_OPEN, ventActionStartMs := 1000,
                  servoPulse := SERVO_STOP_PULSE,
                  cooldownLastTemp := some 58, cooldownLastCheckMs := 61000,
                  cooldownEstSeconds := 900,
                  cooldownProgress := 1/16 } := by
  rw [c5tick1, c5entry_eq, controlTick_cooldown _ _ _ _ _ (by rfl),
    cooldownBranch_window _ _ _ _ (by decide) (by decide) (Or.inr (by rfl)) (by decide)]
  rw [show cooldownTarget (some 25) = 28 by
    norm_num [cooldownTarget, COOLDOWN_TARGET_OFFSET]]
  rw [show decide ((58 : ℚ) ≤ 28 + 1/2) = false by
    rw [decide_eq_false_iff_not]; norm_num]
  rw [c5window1, c5vent1]

theorem c5window2 : cooldownWindow
    { baseSt with ventState := VENT_OPEN, ventActionStartMs := 1000,
                  servoPulse := SERVO_STOP_PULSE,
                  cooldownLastTemp := some 58, cooldownLastCheckMs := 61000,
                  cooldownEstSeconds := 900,
                  cooldownProgress := 1/16 } 56 28 false 121000 =
    ({ baseSt with ventState := VENT_OPEN, ventActionStartMs := 1000,
                   servoPulse := SERVO_STOP_PULSE,
                   cooldownLastTemp := some 56, cooldownLastCheckMs := 121000,
                   cooldownEstSeconds := 840,
                   cooldownProgress := 1/15 }, []) := by
  norm_num [cooldownWindow, setFanDuty, startCloseVent, constrain, baseSt,
    NORMAL_MIN_DUTY, COOLDOWN_RATE_DEG_PER_MIN]

theorem c5tick2_eq : c5tick2 =
    { baseSt with ventState := VENT_OPEN, ventActionStartMs := 1000,
                  servoPulse := SERVO_STOP_PULSE,
                  cooldownLastTemp := some 56, cooldownLastCheckMs := 121000,
                  cooldownEstSeconds := 840,
                  cooldownProgress := 1/15 } := by
  rw [c5tick2, c5tick1_eq, controlTick_cooldown _ _ _ _ _ (by rfl),
    cooldownBranch_window _ _ _ _ (by decide) (by decide) (Or.inl (by rfl)) (by decide)]
  rw [show cooldownTarget (some 25) = 28 by
    norm_num [cooldownTarget, COOLDOWN_TARGET_OFFSET]]
  rw [show decide ((56 : ℚ) ≤ 28 + 1/2) = false by
    rw [decide_eq_false_iff_not]; norm_num]
  rw [c5window2, processVentState_stable _ _ (Or.inl (by rfl))]

/-- Claim C5, counterexample: in a cooldown session entered at 60 °C
(ambient 25 °C, target 28 °C) whose chamber reads 58 °C at the first 60 s
window and 56 °C at the second, the progress reported after the second
window is (58 − 56)/(58 − 28) = 1/15 ≈ 0.067 — computed from the previous
window's temperature — whereas the claimed cumulative formula
clamp((start − current)/(start − target), 0, 1) = (60 − 56)/(60 − 28)
would give 1/8 = 0.125. -/
theorem cooldown_progress_not_cumulative :
    c5tick2.cooldownProgress = 1/15 ∧
      constrain (((60 : ℚ) - 56) / (60 - 28)) 0 1 = 1/8 ∧
      ¬ c5tick2.cooldownProgress = constrain (((60 : ℚ) - 56) / (60 - 28)) 0 1 := by
  rw [c5tick2_eq]
  refine ⟨rfl, by norm_num [constrain], ?_⟩
  norm_num [constrain]

/-- Claim C5, amended: on every cooldown sampling window that has not
finished, the reported progress equals
clamp((prev − current)/(prev − target), 0, 1), where prev is the chamber
temperature recorded at the PREVIOUS sampling window (the session-entry
temperature only for the first window) and is overwritten with the current
temperature at the end of every window — progress is window-relative, not
cumulative over the session; it is forced to 1 when prev − target ≤ 0.5. -/
theorem cooldown_progress_window_relative (s : Ctl) (T L a : ℚ) (now : ℕ)
    (hL : s.cooldownLastTemp = some L)
    (hc0 : ¬ s.cooldownLastCheckMs = 0)
    (hwin : COOLDOWN_SAMPLE_MS ≤ now - s.cooldownLastCheckMs)
    (hnf : ¬ T ≤ a + COOLDOWN_TARGET_OFFSET + 1/2) :
    ((cooldownBranch s T (some a) now).1).cooldownProgress =
        (if 1/2 < L - (a + COOLDOWN_TARGET_OFFSET) then
          constrain ((L - T) / (L - (a + COOLDOWN_TARGET_OFFSET))) 0 1 else 1) ∧
      ((cooldownBranch s T (some a) now).1).cooldownLastTemp = some T := by
  obtain ⟨q, hq, hqL, hqc, hqd⟩ :=
    cooldownBranch_window_fst s T (some a) now hc0 (by simp [hL]) hwin
  have htgt : cooldownTarget (some a) = a + COOLDOWN_TARGET_OFFSET := rfl
  rw [hq, htgt, show decide (T ≤ a + COOLDOWN_TARGET_OFFSET + 1/2) = false from
    decide_eq_false hnf]
  have hqL2 : q.cooldownLastTemp = some L := by rw [hqL, hL]
  have h := cooldownWindow_step q T (a + COOLDOWN_TARGET_OFFSET) now L hqL2 _ rfl
  exact ⟨h.2.2.1, h.2.2.2.1⟩

/-- Claim C5 amended, witness: the second window of the 60 → 58 → 56 °C
session reports (58 − 56)/(58 − 28) = 1/15 and re-records 56 °C. -/
theorem cooldown_progress_window_relative_witness :
    ((cooldownBranch { baseSt with ventState := VENT_OPEN,
                                   cooldownLastTemp := some 58,
                                   cooldownLastCheckMs := 61000 }
        56 (some 25) 121000).1).cooldownProgress = 1/15 ∧
      ((cooldownBranch { baseSt with ventState := VENT_OPEN,
                                     cooldownLastTemp := some 58,
                                     cooldownLastCheckMs := 61000 }
        56 (some 25) 121000).1).cooldownLastTemp = some 56 := by
  have h := cooldown_progress_window_relative
    { baseSt with ventState := VENT_OPEN,
                  cooldownLastTemp := some 58, cooldownLastCheckMs := 61000 }
    56 58 25 121000 rfl (by decide) (by decide)
    (by norm_num [COOLDOWN_TARGET_OFFSET])
  refine ⟨h.1.trans ?_, h.2⟩
  norm_num [COOLDOWN_TARGET_OFFSET, constrain]

/-- Claim C6: on a cooldown sampling window that has not finished, with
measured rate `(L − T) · 60000/elapsed` in °C/min, the duty adjustment is
+20 when the rate is below 1.5 − 0.3, −20 when above 1.5 + 0.3, 0
otherwise; the new stored duty is `constrain(old + adj, 0, 255)` and is
written out with `allowBelowMinimum = true`, so it is NOT floored to the
normal-mode minimum: below 51 the power is cut (PWM 0), otherwise the PWM
is exactly `duty/255`.  Progress for the window is
clamp((L − T)/(L − target), 0, 1). -/
theorem cooldown_rate_adjustment (s : Ctl) (T L a : ℚ) (now : ℕ)
    (hL : s.cooldownLastTemp = some L)
    (hc0 : ¬ s.cooldownLastCheckMs = 0)
    (hwin : COOLDOWN_SAMPLE_MS ≤ now - s.cooldownLastCheckMs)
    (hnf : ¬ T ≤ a + COOLDOWN_TARGET_OFFSET + 1/2)
    (adj : ℤ)
    (hadj : adj = (if (L - T) * (60000 / ((now - s.cooldownLastCheckMs : ℕ) : ℚ)) <
          COOLDOWN_RATE_DEG_PER_MIN - 3/10 then 20
        else if COOLDOWN_RATE_DEG_PER_MIN + 3/10 <
          (L - T) * (60000 / ((now - s.cooldownLastCheckMs : ℕ) : ℚ)) then -20 else 0)) :
    ((cooldownBranch s T (some a) now).1).cooldownFanDuty =
        (constrain ((s.cooldownFanDuty : ℤ) + adj) 0 255).toNat ∧
      ((cooldownBranch s T (some a) now).1).fanDutyCycle =
        (constrain ((s.cooldownFanDuty : ℤ) + adj) 0 255).toNat ∧
      ((constrain ((s.cooldownFanDuty : ℤ) + adj) 0 255).toNat < NORMAL_MIN_DUTY →
        ((cooldownBranch s T (some a) now).1).fanPwm = 0 ∧
        ((cooldownBranch s T (some a) now).1).fanPower = false) ∧
      (¬ (constrain ((s.cooldownFanDuty : ℤ) + adj) 0 255).toNat < NORMAL_MIN_DUTY →
        ((cooldownBranch s T (some a) now).1).fanPwm =
            (((constrain ((s.cooldownFanDuty : ℤ) + adj) 0 255).toNat : ℚ)) / 255 ∧
        ((cooldownBranch s T (some a) now).1).fanPower = true) ∧
      ((cooldownBranch s T (some a) now).1).cooldownProgress =
        (if 1/2 < L - (a + COOLDOWN_TARGET_OFFSET) then
          constrain ((L - T) / (L - (a + COOLDOWN_TARGET_OFFSET))) 0 1 else 1) := by
  obtain ⟨q, hq, hqL, hqc, hqd⟩ :=
    cooldownBranch_window_fst s T (some a) now hc0 (by simp [hL]) hwin
  have htgt : cooldownTarget (some a) = a + COOLDOWN_TARGET_OFFSET := rfl
  rw [hq, htgt, show decide (T ≤ a + COOLDOWN_TARGET_OFFSET + 1/2) = false from
    decide_eq_false hnf]
  have hqL2 : q.cooldownLastTemp = some L := by rw [hqL, hL]
  have hadj2 : adj = (if (L - T) * (60000 / ((now - q.cooldownLastCheckMs : ℕ) : ℚ)) <
      COOLDOWN_RATE_DEG_PER_MIN - 3/10 then 20
    else if COOLDOWN_RATE_DEG_PER_MIN + 3/10 <
      (L - T) * (60000 / ((now - q.cooldownLastCheckMs : ℕ) : ℚ)) then -20 else 0) := by
    rw [hadj, hqc]
  have h := cooldownWindow_step q T (a + COOLDOWN_TARGET_OFFSET) now L hqL2 adj hadj2
  rw [hqd] at h
  exact ⟨h.1, h.2.1, h.2.2.2.2.1, h.2.2.2.2.2, h.2.2.1⟩

/-- Claim C6, witness: the spec scenario — window entered at 60 °C with
ambient 25 °C (target 28 °C), one 60 s window with a 2.0 °C drop (rate
2.0 °C/min above 1.5 + 0.3) — decreases the duty by 20 (here 100 → 80,
clamped into [0, 255]), writes PWM 80/255 un-floored, and reports
progress (60 − 58)/(60 − 28) = 1/16 = 0.0625. -/
theorem cooldown_rate_adjustment_witness :
    ((cooldownBranch { baseSt with ventState := VENT_OPEN,
                                   cooldownLastTemp := some 60,
                                   cooldownLastCheckMs := 1000,
                                   cooldownFanDuty := 100 }
        58 (some 25) 61000).1).cooldownFanDuty = 100 - 20 ∧
      ((cooldownBranch { baseSt with ventState := VENT_OPEN,
                                     cooldownLastTemp := some 60,
                                     cooldownLastCheckMs := 1000,
                                     cooldownFanDuty := 100 }
        58 (some 25) 61000).1).cooldownProgress = 1/16 ∧
      ((cooldownBranch { baseSt with ventState := VENT_OPEN,
                                     cooldownLastTemp := some 60,
                                     cooldownLastCheckMs := 1000,
                                     cooldownFanDuty := 100 }
        58 (some 25) 61000).1).fanPwm = 80/255 := by
  have h := cooldown_rate_adjustment
    { baseSt with ventState := VENT_OPEN, cooldownLastTemp := some 60,
                  cooldownLastCheckMs := 1000, cooldownFanDuty := 100 }
    58 60 25 61000 rfl (by decide) (by decide)
    (by norm_num [COOLDOWN_TARGET_OFFSET]) (-20)
    (by norm_num [COOLDOWN_RATE_DEG_PER_MIN])
  have hd100 : ({ baseSt with ventState := VENT_OPEN, cooldownLastTemp := some 60,
                              cooldownLastCheckMs := 1000,
                              cooldownFanDuty := 100 } : Ctl).cooldownFanDuty = 100 := rfl
  rw [hd100] at h
  have hc : (constrain (((100 : ℕ) : ℤ) + (-20)) 0 255).toNat = 80 := by
    norm_num [constrain]
    rfl
  refine ⟨?_, ?_, ?_⟩
  · rw [h.1, hc]
  · rw [h.2.2.2.2]
    norm_num [COOLDOWN_TARGET_OFFSET, constrain]
  · have h2 := h.2.2.2.1 (by rw [hc]; norm_num [NORMAL_MIN_DUTY])
    rw [h2.1, hc]
    norm_num

/-- Claim C2: on a mode-active tick with both readings valid, a clear
intake-fault flag becomes asserted iff intake − chamber > 5; an asserted
flag becomes clear iff intake − chamber ≤ 2; in the dead zone
2 < intake − chamber ≤ 5 the flag is unchanged in either direction; and
whenever the flag is asserted after the tick, the fan is commanded to
maximum (`FAN_HIGH`), the mode logic is suppressed (the cooldown session
fields are untouched), the assert transition commands the vent fully open,
and a vent already at or moving toward full open stays there. -/
theorem intake_fault_hysteresis_and_override
    (s : Ctl) (T I : ℚ) (ambient : Option ℚ) (mode : ℕ) (target : ℚ) (now : ℕ) :
    (s.intakeFault = false →
      (((controlTick s true (some T) (some I) ambient mode target now).1).intakeFault = true ↔
        I - T > 5)) ∧
      (s.intakeFault = true →
        (((controlTick s true (some T) (some I) ambient mode target now).1).intakeFault =
          false ↔ I - T ≤ 2)) ∧
      (2 < I - T → I - T ≤ 5 →
        ((controlTick s true (some T) (some I) ambient mode target now).1).intakeFault =
          s.intakeFault) ∧
      (((controlTick s true (some T) (some I) ambient mode target now).1).intakeFault = true →
        ((controlTick s true (some T) (some I) ambient mode target now).1).fanSpeed =
            FAN_HIGH ∧
          ((controlTick s true (some T) (some I) ambient mode target now).1).cooldownFanDuty =
            s.cooldownFanDuty ∧
          ((controlTick s true (some T) (some I) ambient mode target now).1).cooldownProgress =
            s.cooldownProgress ∧
          ((controlTick s true (some T) (some I) ambient mode target now).1).cooldownLastTemp =
            s.cooldownLastTemp ∧
          (s.intakeFault = false →
            (((controlTick s true (some T) (some I) ambient mode target now).1).ventState =
                VENT_OPENING ∨
              ((controlTick s true (some T) (some I) ambient mode target now).1).ventState =
                VENT_OPEN)) ∧
          ((s.ventState = VENT_OPENING ∨ s.ventState = VENT_OPEN) →
            (((controlTick s true (some T) (some I) ambient mode target now).1).ventState =
                VENT_OPENING ∨
              ((controlTick s true (some T) (some I) ambient mode target now).1).ventState =
                VENT_OPEN))) := by
  by_cases hsf : s.intakeFault = true
  · by_cases hcool : I ≤ T + 2
    · -- asserted flag clears
      have hfb : faultBranch s T (some I) now = ({ s with intakeFault := false }, []) := by
        simp [faultBranch, hsf, hcool]
      have hr : ((controlTick s true (some T) (some I) ambient mode target now).1).intakeFault =
          false := by
        by_cases hm : mode = 6 <;>
          simp [controlTick, hfb, hm, cooldownBranch_intakeFault, normalBranch_intakeFault]
      refine ⟨fun h => ?_, fun _ => ⟨fun _ => by linarith, fun _ => hr⟩,
        fun h2 _ => ?_, fun hft => ?_⟩
      · rw [h] at hsf; cases hsf
      · exact absurd hcool (by push_neg; linarith)
      · rw [hr] at hft; cases hft
    · -- asserted flag holds
      have hfb : faultBranch s T (some I) now = (s, []) := by
        simp [faultBranch, hsf, hcool]
      have hstep : controlTick s true (some T) (some I) ambient mode target now =
          ((processVentState (updateFan s FAN_HIGH) now).1,
           (processVentState (updateFan s FAN_HIGH) now).2) := by
        simp [controlTick, hfb, hsf]
      have hr : ((controlTick s true (some T) (some I) ambient mode target now).1).intakeFault =
          true := by
        rw [hstep]; simp [hsf]
      refine ⟨fun h => ?_, fun _ => ⟨fun h => ?_, fun h => absurd ?_ hcool⟩,
        fun _ _ => hr.trans hsf.symm, fun _ => ?_⟩
      · rw [h] at hsf; cases hsf
      · rw [hr] at h; cases h
      · linarith
      · rw [hstep]
        refine ⟨by simp, by simp, by simp, by simp, fun h => ?_, fun hv => ?_⟩
        · rw [h] at hsf; cases hsf
        · exact processVentState_keeps_open _ _ (by simpa [updateFan_ventState] using hv)
  · have hsf' : s.intakeFault = false := by
      cases h : s.intakeFault
      · rfl
      · exact absurd h hsf
    by_cases hhot : I > T + 5
    · -- clear flag asserts
      have hfb : faultBranch s T (some I) now =
          (updateFan ((startOpenVent { s with intakeFault := true } false now).1) FAN_HIGH,
           (startOpenVent { s with intakeFault := true } false now).2) := by
        simp [faultBranch, hsf', hhot]
      have hstep : controlTick s true (some T) (some I) ambient mode target now =
          ((processVentState
              (updateFan
                (updateFan ((startOpenVent { s with intakeFault := true } false now).1)
                  FAN_HIGH) FAN_HIGH) now).1,
           (startOpenVent { s with intakeFault := true } false now).2 ++
             (processVentState
              (updateFan
                (updateFan ((startOpenVent { s with intakeFault := true } false now).1)
                  FAN_HIGH) FAN_HIGH) now).2) := by
        simp [controlTick, hfb]
      have hr : ((controlTick s true (some T) (some I) ambient mode target now).1).intakeFault =
          true := by
        rw [hstep]; simp
      have hvent : ((controlTick s true (some T) (some I) ambient mode target now).1).ventState =
            VENT_OPENING ∨
          ((controlTick s true (some T) (some I) ambient mode target now).1).ventState =
            VENT_OPEN := by
        rw [hstep]
        refine processVentState_keeps_open _ _ ?_
        simpa [updateFan_ventState] using
          startOpenVent_full_opens { s with intakeFault := true } now
      refine ⟨fun _ => ⟨fun _ => by linarith, fun _ => hr⟩, fun h => ?_,
        fun _ h5 => absurd hhot (by push_neg; linarith), fun _ => ?_⟩
      · rw [h] at hsf'; cases hsf'
      · refine ⟨?_, ?_, ?_, ?_, fun _ => hvent, fun _ => hvent⟩ <;> rw [hstep] <;> simp
    · -- clear flag stays clear
      have hfb : faultBranch s T (some I) now = (s, []) := by
        simp [faultBranch, hsf', hhot]
      have hr : ((controlTick s true (some T) (some I) ambient mode target now).1).intakeFault =
          false := by
        by_cases hm : mode = 6 <;>
          simp [controlTick, hfb, hm, hsf', cooldownBranch_intakeFault,
            normalBranch_intakeFault]
      refine ⟨fun _ => ⟨fun h => ?_, fun h => absurd hhot (by push_neg; linarith)⟩,
        fun h => ?_, fun _ _ => hr.trans hsf'.symm, fun hft => ?_⟩
      · rw [hr] at h; cases h
      · rw [h] at hsf'; cases hsf'
      · rw [hr] at hft; cases hft

/-- Claim C2, witness: from a clear state, intake 26 °C against chamber
20 °C (difference 6 > 5) asserts the fault, commands `FAN_HIGH`, and
drives the vent toward full open. -/
theorem intake_fault_hysteresis_and_override_witness :
    ((controlTick baseSt true (some 20) (some 26) none 2 60 5000).1).intakeFault = true ∧
      ((controlTick baseSt true (some 20) (some 26) none 2 60 5000).1).fanSpeed = FAN_HIGH ∧
      (((controlTick baseSt true (some 20) (some 26) none 2 60 5000).1).ventState =
          VENT_OPENING ∨
        ((controlTick baseSt true (some 20) (some 26) none 2 60 5000).1).ventState =
          VENT_OPEN) := by
  have h := intake_fault_hysteresis_and_override baseSt 20 26 none 2 60 5000
  have hft : ((controlTick baseSt true (some 20) (some 26) none 2 60 5000).1).intakeFault =
      true := (h.1 rfl).mpr (by norm_num)
  have ho := h.2.2.2 hft
  exact ⟨hft, ho.1, ho.2.2.2.2.1 rfl⟩

end ChamberMaster
